import Mathlib

/-!
# Verification of the bank-minder reminder/notification subsystem

Shallow embedding of the activity/notification reminder orchestration code:

* the capability probe `isLiveActivitySupported` (user-agent sniffing),
* `sendTransactionNotification` (schedule with a single 1-second retry),
* `startLiveActivity` / `updateLiveActivity` / `endLiveActivity`
  (transaction live-activity path with notification fallback),
* `startShiftReminder` / `endShiftReminder` in both source variants
  (live-activity attempt, scheduled-notification fallback with a clamped
  trigger delay), `cancelShiftReminder` and `getActiveShiftReminders`.

External asynchronous calls (native live-activity module, the notification
scheduler, permission queries) are modelled by oracle records that fix the
outcome of each call; a thrown JavaScript error is an `Except.error`.
-/

set_option autoImplicit false

namespace BankMinder

/-- JavaScript-level error values thrown inside the reminder subsystem.
`generic` models a plain `Error(message)`; the other two constructors model
the `NotificationError`/`ActivityError` classes (message first, detail
second). -/
inductive JsError where
  | generic (message : String)
  | notificationError (message : String) (detail : String)
  | activityError (message : String) (detail : String)
deriving Repr, DecidableEq

/-- `error instanceof Error ? error.message : String(error)`: the message of
a thrown error. -/
def errMsg : JsError → String
  | .generic m => m
  | .notificationError m _ => m
  | .activityError m _ => m

/-- A JavaScript `try { body } catch (e) { handler(e) }`, over `Except`. -/
def jsTry {α : Type} (body : Except JsError α) (handler : JsError → Except JsError α) :
    Except JsError α :=
  match body with
  | .ok a => .ok a
  | .error e => handler e

/-! ## Capability probe (`isLiveActivitySupported`) -/

/-- The browser environment read by `isLiveActivitySupported`: whether
`window` is defined, and `navigator.userAgent`. -/
structure BrowserEnv where
  windowPresent : Bool
  userAgent : String
deriving Repr, DecidableEq

/-- JavaScript `s.includes(pat)` for a fixed non-empty pattern `pat`:
`String.splitOn` yields at least two pieces exactly when `pat` occurs in
`s`. -/
def containsSub (s pat : String) : Bool :=
  2 ≤ (s.splitOn pat).length

/-- `/iPad|iPhone|iPod/.test(userAgent)`. -/
def isIOSAgent (ua : String) : Bool :=
  containsSub ua "iPad" || containsSub ua "iPhone" || containsSub ua "iPod"

/-- `parseInt(d, 10)` on a non-empty all-digit capture group. -/
def natOfDigits (l : List Char) : Nat :=
  l.foldl (fun a c => a * 10 + (c.toNat - 48)) 0

/-- One attempt of the regex `OS (\d+)_(\d+)` anchored at the head of `l`:
the literal `"OS "` followed by a maximal non-empty digit run, `'_'`, and a
second maximal non-empty digit run (backtracking cannot shorten either run
here, since a digit can never match `'_'`). -/
def matchOSAt (l : List Char) : Option (Nat × Nat) :=
  match l with
  | 'O' :: 'S' :: ' ' :: rest =>
    let d1 := rest.takeWhile Char.isDigit
    let r1 := rest.dropWhile Char.isDigit
    if d1.isEmpty then none
    else
      match r1 with
      | '_' :: rest2 =>
        let d2 := rest2.takeWhile Char.isDigit
        if d2.isEmpty then none else some (natOfDigits d1, natOfDigits d2)
      | _ => none
  | _ => none

/-- Leftmost match of `userAgent.match(/OS (\d+)_(\d+)/)`: the two numeric
capture groups of the first position at which the pattern matches. -/
def findOSMatch : List Char → Option (Nat × Nat)
  | [] => none
  | c :: rest =>
    match matchOSAt (c :: rest) with
    | some r => some r
    | none => findOSMatch rest

/-- The `iOSVersionMatch` of the source: groups of `/OS (\d+)_(\d+)/` run on
the user agent, already fed through `parseInt`. -/
def parseOSVersion (ua : String) : Option (Nat × Nat) :=
  findOSMatch ua.data

/-- `isLiveActivitySupported` from the source: `false` when `window` is
undefined, when the user agent carries no iOS device token, or when the
version regex does not match; otherwise true iff the parsed version is at
least 16.1.  The surrounding `try`/`catch` (any internal exception resolves
to `false`) has no effect in the embedding, whose body is total. -/
def isLiveActivitySupported (env : BrowserEnv) : Bool :=
  if env.windowPresent = false then false
  else if isIOSAgent env.userAgent = false then false
  else
    match parseOSVersion env.userAgent with
    | none => false
    | some (major, minor) =>
      decide (16 < major) || (decide (major = 16) && decide (1 ≤ minor))

/-- The claim's reading of the capability probe, stated as a predicate on
the environment: the user agent identifies an iOS device (window present
and an iOS device token occurs) and the parsed OS version is 16.1 or
later. -/
def specSupportsRichActivity (env : BrowserEnv) : Prop :=
  env.windowPresent = true ∧ isIOSAgent env.userAgent = true ∧
    ∃ mj mn, parseOSVersion env.userAgent = some (mj, mn) ∧
      (16 < mj ∨ (mj = 16 ∧ 1 ≤ mn))

/-- C6: the capability probe is a total function of the environment (its
type in the embedding), and it returns `true` exactly when the user agent
identifies an iOS device whose parsed OS version is 16.1 or later; every
detection failure (absent window, non-iOS agent, unparseable version)
resolves to `false`. -/
theorem isLiveActivitySupported_iff_spec (env : BrowserEnv) :
    isLiveActivitySupported env = true ↔ specSupportsRichActivity env := by
  unfold isLiveActivitySupported specSupportsRichActivity
  cases hw : env.windowPresent with
  | false => simp
  | true =>
    cases hios : isIOSAgent env.userAgent with
    | false => simp
    | true =>
      cases hv : parseOSVersion env.userAgent with
      | none => simp
      | some p =>
        obtain ⟨mj, mn⟩ := p
        constructor
        · intro h
          refine ⟨rfl, rfl, mj, mn, rfl, ?_⟩
          simpa using h
        · rintro ⟨-, -, a, b, hab, h⟩
          obtain ⟨rfl, rfl⟩ : mj = a ∧ mn = b := by simpa using hab
          simpa using h

/-! ## Notification gateway (`sendTransactionNotification`) -/

/-- Oracle for one `sendTransactionNotification` request: the permission
query results and the outcomes of the (at most two) calls to
`Notifications.scheduleNotificationAsync`. -/
structure NotifGateway where
  permGranted : Bool
  requestGranted : Bool
  schedule1 : Except JsError String
  schedule2 : Except JsError String

/-- The `try` body of `sendTransactionNotification`: the permission check
(`getPermissionsAsync`, then `requestPermissionsAsync` when not granted,
throwing `NotificationError` when both deny), followed by one
`scheduleNotificationAsync` call with `trigger: null`.  Returns the body's
outcome and how many times the schedule call ran (`0` or `1`). -/
def sendBody (gw : NotifGateway) (sched : Except JsError String) :
    Except JsError String × Nat :=
  if gw.permGranted || gw.requestGranted then
    (sched, 1)
  else
    (.error (.notificationError "Notification permissions not granted"
      "User denied notification permissions"), 0)

/-- Observable behaviour of one `sendTransactionNotification` request: the
returned/thrown value, the total number of `scheduleNotificationAsync`
invocations, and the list of `setTimeout` waits (in milliseconds) taken. -/
structure NotifSendTrace where
  result : Except JsError String
  scheduleCalls : Nat
  delaysMs : List Nat
deriving Repr

/-- `sendTransactionNotification(payload, retry = true)`: on any thrown
error the body is re-run once after a 1000 ms `setTimeout` with
`retry = false`; a failure of that second attempt is wrapped as
`NotificationError('Failed to send notification', ...)` and thrown. -/
def sendTransactionNotification (gw : NotifGateway) : NotifSendTrace :=
  match sendBody gw gw.schedule1 with
  | (.ok id, n) => ⟨.ok id, n, []⟩
  | (.error _, n) =>
    match sendBody gw gw.schedule2 with
    | (.ok id, m) => ⟨.ok id, n + m, [1000]⟩
    | (.error e2, m) =>
      ⟨.error (.notificationError "Failed to send notification" (errMsg e2)),
        n + m, [1000]⟩

/-- C2: when permissions are granted and the first schedule attempt throws,
the schedule call is retried exactly once after a fixed 1000 ms delay; the
retry's success is returned as-is, its failure is thrown wrapped as
`NotificationError`; and in all cases the underlying schedule call runs at
most twice per request. -/
theorem sendTransactionNotification_retry (gw : NotifGateway) (e1 : JsError)
    (hperm : gw.permGranted = true) (h1 : gw.schedule1 = .error e1) :
    (sendTransactionNotification gw).delaysMs = [1000] ∧
    (sendTransactionNotification gw).scheduleCalls = 2 ∧
    (∀ id, gw.schedule2 = .ok id → (sendTransactionNotification gw).result = .ok id) ∧
    (∀ e2, gw.schedule2 = .error e2 →
      (sendTransactionNotification gw).result =
        .error (.notificationError "Failed to send notification" (errMsg e2))) ∧
    (∀ gw' : NotifGateway, (sendTransactionNotification gw').scheduleCalls ≤ 2) := by
  refine ⟨?_, ?_, ?_, ?_, ?_⟩
  · cases h2 : gw.schedule2 <;>
      simp [sendTransactionNotification, sendBody, hperm, h1, h2]
  · cases h2 : gw.schedule2 <;>
      simp [sendTransactionNotification, sendBody, hperm, h1, h2]
  · intro id h2
    simp [sendTransactionNotification, sendBody, hperm, h1, h2]
  · intro e2 h2
    simp [sendTransactionNotification, sendBody, hperm, h1, h2]
  · intro gw'
    unfold sendTransactionNotification sendBody
    cases hp : (gw'.permGranted || gw'.requestGranted) <;>
      cases h1' : gw'.schedule1 <;> cases h2' : gw'.schedule2 <;> simp [hp, h1', h2']

/-- Witness for C2 at a concrete gateway whose two schedule attempts both
throw. -/
theorem sendTransactionNotification_retry_witness :
    (sendTransactionNotification
        ⟨true, false, .error (.generic "scheduler busy"), .error (.generic "still busy")⟩).result =
      .error (.notificationError "Failed to send notification" "still busy") :=
  ((sendTransactionNotification_retry
      ⟨true, false, .error (.generic "scheduler busy"), .error (.generic "still busy")⟩
      (.generic "scheduler busy") rfl rfl).2.2.2.1 (.generic "still busy") rfl)

/-! ## Transaction live-activity path (`startLiveActivity` and friends) -/

/-- Resource kind returned by `startLiveActivity` (`type` in the source). -/
inductive ResType where
  | liveActivity
  | notification
deriving Repr, DecidableEq

/-- `{ id, type }` returned by `startLiveActivity`. -/
structure TxStartResult where
  id : String
  resType : ResType
deriving Repr, DecidableEq

/-- Oracle for one `startLiveActivity` call: the capability probe's answer,
the outcome of `startNativeLiveActivity`, and the notification gateway used
by the fallback `sendTransactionNotification`. -/
structure TxOracle where
  supported : Bool
  nativeStart : Except JsError String
  gw : NotifGateway

/-- `startLiveActivity(attributes, state)`: when the probe answers `true`,
attempt the native start and return `{id, type:'liveActivity'}`; on any
thrown error (or when unsupported) fall through to
`sendTransactionNotification`; if that also throws, wrap the error as
`ActivityError('Failed to start Live Activity or send notification', ...)`
and throw it. -/
def startLiveActivity (o : TxOracle) : Except JsError TxStartResult :=
  let fallback : Except JsError TxStartResult :=
    match (sendTransactionNotification o.gw).result with
    | .ok nid => .ok ⟨nid, .notification⟩
    | .error e =>
      .error (.activityError "Failed to start Live Activity or send notification" (errMsg e))
  if o.supported then
    match o.nativeStart with
    | .ok aid => .ok ⟨aid, .liveActivity⟩
    | .error _ => fallback
  else fallback

/-- A call made against the native live-activity layer. -/
inductive NativeCall where
  | startA (id : String)
  | updateA (id : String)
  | endA (id : String)
deriving Repr, DecidableEq

/-- Whether a native call is a fresh activity start. -/
def NativeCall.isStart : NativeCall → Bool
  | .startA _ => true
  | _ => false

/-- `updateLiveActivity(activityId, state)`: skip entirely when the probe
answers `false`; otherwise run `updateNativeLiveActivity` and swallow (log
only) any thrown error.  The second component records the native calls the
function performed. -/
def updateLiveActivity (supported : Bool) (updateNative : Except JsError Unit)
    (activityId : String) : Except JsError Unit × List NativeCall :=
  if supported = false then
    (.ok (), [])
  else
    (jsTry updateNative (fun _ => .ok ()), [.updateA activityId])

/-- `endLiveActivity(activityId, finalState?)`: skip when unsupported,
otherwise run `endNativeLiveActivity` and swallow any thrown error. -/
def endLiveActivity (supported : Bool) (endNative : Except JsError Unit) :
    Except JsError Unit :=
  jsTry (if supported = false then .ok () else endNative) (fun _ => .ok ())

/-! ## Shift reminders, first variant (part_001) -/

/-- `{ type, id }` returned by the part_001 `startShiftReminder`. -/
structure P1StartResult where
  rtype : String
  id : String
deriving Repr, DecidableEq

/-- Oracle for the part_001 `startShiftReminder`: platform, the dynamic
`import('expo-live-activity')` outcome, whether the module exposes
`startActivity`, and the outcomes of `LiveActivity.startActivity` and
`Notifications.scheduleNotificationAsync`. -/
structure P1Oracle where
  isIOS : Bool
  importResult : Except JsError Unit
  hasStartActivity : Bool
  activityStart : Except JsError String
  scheduleResult : Except JsError String

/-- part_001 `startShiftReminder(checkInId, shiftData)`: on iOS, attempt the
live activity inside an inner `try` whose `catch` only warns; on success
return `{type:'live-activity', id: checkInId}`.  Otherwise schedule an
immediate persistent notification and return `{type:'notification', id}`;
if that throws, the outer `catch` throws
`Error('Could not start shift reminder')`. -/
def startShiftReminder1 (o : P1Oracle) (checkInId : String) :
    Except JsError P1StartResult :=
  let fallback : Except JsError P1StartResult :=
    match o.scheduleResult with
    | .ok nid => .ok ⟨"notification", nid⟩
    | .error _ => .error (.generic "Could not start shift reminder")
  if o.isIOS then
    match o.importResult with
    | .error _ => fallback
    | .ok _ =>
      if o.hasStartActivity then
        match o.activityStart with
        | .ok _ => .ok ⟨"live-activity", checkInId⟩
        | .error _ => fallback
      else fallback
  else fallback

/-- A notification outstanding in the notification center, carrying the
correlation data the app embedded when scheduling it. -/
structure DisplayedNotif where
  identifier : String
  checkInId : Option String
deriving Repr, DecidableEq

/-- Oracle for the part_001 `endShiftReminder`: platform, the dynamic import
outcome, whether the module exposes `endActivity`, and the outcomes of
`LiveActivity.endActivity` and `Notifications.dismissAllNotificationsAsync`. -/
structure EndOracle where
  isIOS : Bool
  importResult : Except JsError Unit
  hasEndActivity : Bool
  endResult : Except JsError Unit
  dismissAllResult : Except JsError Unit

/-- part_001 `endShiftReminder(checkInId, notificationId?)`: on iOS, end the
live activity inside an inner `try` whose `catch` only warns; then call
`dismissAllNotificationsAsync` (which clears every outstanding
notification); the outer `catch` only logs.  Returns the thrown-error
channel (always `ok`) and the outstanding notifications afterwards. -/
def endShiftReminder1 (o : EndOracle) (checkInId : String)
    (displayed : List DisplayedNotif) :
    Except JsError Unit × List DisplayedNotif :=
  let activityPhase : Except JsError Unit :=
    if o.isIOS then
      jsTry
        (match o.importResult with
         | .error e => .error e
         | .ok _ => if o.hasEndActivity then o.endResult else .ok ())
        (fun _ => .ok ())
    else .ok ()
  let body : Except JsError Unit × List DisplayedNotif :=
    match activityPhase with
    | .error e => (.error e, displayed)
    | .ok _ =>
      match o.dismissAllResult with
      | .ok _ => (.ok (), [])
      | .error e => (.error e, displayed)
  match body with
  | (.ok _, d) => (.ok (), d)
  | (.error _, d) => (.ok (), d)

/-! ## Shift reminders, second variant (part_002) -/

/-- `Math.max(1, Math.floor((target - Date.now()) / 1000) - 900)`: the
trigger delay, in seconds, passed to `scheduleNotificationAsync` — the time
until `target` minus the fixed 15-minute lead, floored and clamped to a
minimum of one second.  Times are in milliseconds; `Int.fdiv` is
`Math.floor` of the real quotient on integer inputs. -/
def triggerSeconds (target now : Int) : Int :=
  max 1 ((target - now).fdiv 1000 - 900)

/-- The `ShiftActivityData` fed to the part_002 reminder functions
(timestamps in milliseconds since the epoch). -/
structure ShiftActivityData where
  shiftId : String
  startTime : Int
  endTime : Int
deriving Repr, DecidableEq

/-- Oracle for the part_002 `startShiftReminder`: the
`configureNotifications` outcome, platform, whether `getActivityModule`
produced a module exposing `startActivity`, the outcomes of
`startActivity` and `scheduleNotificationAsync`, and `Date.now()`. -/
structure ShiftOracle where
  configResult : Except JsError Unit
  isIOS : Bool
  hasStartActivity : Bool
  activityStart : Except JsError String
  scheduleResult : Except JsError String
  nowMs : Int

/-- Result of the part_002 `startShiftReminder`/`endShiftReminder`
(`{success, activityId?, notificationId?, message}`), extended with a ghost
field recording the `trigger.seconds` value passed to
`scheduleNotificationAsync` (`none` when the scheduler was never called). -/
structure ShiftReminderOutcome where
  success : Bool
  activityId : Option String
  notificationId : Option String
  message : String
  scheduledTrigger : Option Int
deriving Repr, DecidableEq

/-- part_002 `startShiftReminder(activityData)`: configure notifications
(rethrows on failure into the outer `catch`, which returns
`success:false`); on iOS attempt `startActivity` inside an inner `try`
whose `catch` only warns; otherwise schedule the fallback notification with
the clamped 15-minute-lead trigger.  Never throws: the outer `catch`
converts any error into `{success:false, message}`. -/
def startShiftReminder2 (o : ShiftOracle) (d : ShiftActivityData) :
    ShiftReminderOutcome :=
  match o.configResult with
  | .error e => ⟨false, none, none, "Failed to start shift reminder: " ++ errMsg e, none⟩
  | .ok _ =>
    let activityAttempt : Option (Except JsError String) :=
      if o.isIOS && o.hasStartActivity then some o.activityStart else none
    match activityAttempt with
    | some (.ok aid) =>
      ⟨true, some aid, none, "Shift reminder started via Live Activity", none⟩
    | _ =>
      let t := triggerSeconds d.startTime o.nowMs
      match o.scheduleResult with
      | .ok nid =>
        ⟨true, none, some nid, "Shift reminder scheduled via notification", some t⟩
      | .error e =>
        ⟨false, none, none, "Failed to start shift reminder: " ++ errMsg e, some t⟩

/-- Oracle for the part_002 `endShiftReminder`: as for the start variant,
plus whether the module exposes `updateActivity` and the outcomes of
`updateActivity`/`startActivity`. -/
structure EndShiftOracle where
  configResult : Except JsError Unit
  isIOS : Bool
  hasUpdateActivity : Bool
  hasStartActivity : Bool
  updateResult : Except JsError Unit
  startResult : Except JsError String
  scheduleResult : Except JsError String
  nowMs : Int

/-- part_002 `endShiftReminder(activityData)`: configure notifications; on
iOS, when the module exposes `updateActivity` or `startActivity`, first try
to update the `shift-end-` activity, else create one; any throw in that
block is swallowed by the inner `catch` and control falls through to the
scheduled-notification fallback with the clamped 15-minute-lead trigger on
`endTime`. -/
def endShiftReminder2 (o : EndShiftOracle) (d : ShiftActivityData) :
    ShiftReminderOutcome :=
  match o.configResult with
  | .error e => ⟨false, none, none, "Failed to end shift reminder: " ++ errMsg e, none⟩
  | .ok _ =>
    let activityOutcome : Option ShiftReminderOutcome :=
      if o.isIOS && (o.hasStartActivity || o.hasUpdateActivity) then
        if o.hasUpdateActivity then
          match o.updateResult with
          | .ok _ =>
            some ⟨true, some ("shift-end-" ++ d.shiftId), none,
              "Shift reminder updated via Live Activity", none⟩
          | .error _ => none
        else
          match o.startResult with
          | .ok aid =>
            some ⟨true, some aid, none,
              "End shift reminder started via Live Activity", none⟩
          | .error _ => none
      else none
    match activityOutcome with
    | some r => r
    | none =>
      let t := triggerSeconds d.endTime o.nowMs
      match o.scheduleResult with
      | .ok nid =>
        ⟨true, none, some nid, "End shift reminder scheduled via notification", some t⟩
      | .error e =>
        ⟨false, none, none, "Failed to end shift reminder: " ++ errMsg e, some t⟩

/-! ## Cancellation and queries (part_002) -/

/-- A scheduled notification request as listed by
`getAllScheduledNotificationsAsync`: its identifier and the correlation
fields the app embedded in `content.data` (`shiftId`, `type`), each of
which may be absent. -/
structure SchedNotif where
  identifier : String
  shiftId : Option String
  ntype : Option String
deriving Repr, DecidableEq

/-- `{success, message}` returned by `cancelShiftReminder`. -/
structure CancelResult where
  success : Bool
  message : String
deriving Repr, DecidableEq

/-- Oracle for `cancelShiftReminder`: platform, whether the module exposes
`dismissActivity`, the outcome of that call, whether
`getAllScheduledNotificationsAsync` throws, and the outcome of
`cancelScheduledNotificationAsync` per notification identifier. -/
structure CancelOracle where
  isIOS : Bool
  hasDismissActivity : Bool
  dismissResult : Except JsError Unit
  listResult : Except JsError Unit
  cancelOutcome : String → Except JsError Unit

/-- The `for (const notif of relevantNotifications)` loop of
`cancelShiftReminder`: cancel each matching notification in turn, removing
it from the scheduled store on success and aborting with the thrown error
otherwise. -/
def cancelLoop (o : CancelOracle) :
    List SchedNotif → List SchedNotif → Except JsError Unit × List SchedNotif
  | [], store => (.ok (), store)
  | n :: rest, store =>
    match o.cancelOutcome n.identifier with
    | .ok _ => cancelLoop o rest (store.filter (fun m => m.identifier != n.identifier))
    | .error e => (.error e, store)

/-- part_002 `cancelShiftReminder(shiftId, type)`: on iOS first try
`dismissActivity` inside an inner `try` whose `catch` only warns — on
success return immediately without touching the scheduled notifications;
otherwise list all scheduled notifications, filter by
`content.data?.shiftId === shiftId`, and cancel each.  The outer `catch`
converts any thrown error into `{success:false, message}`, so the function
itself never throws (its thrown-error channel is always `ok`). -/
def cancelShiftReminder (o : CancelOracle) (store : List SchedNotif)
    (shiftId ty : String) : Except JsError CancelResult × List SchedNotif :=
  let early : Option CancelResult :=
    if o.isIOS && o.hasDismissActivity then
      match o.dismissResult with
      | .ok _ => some ⟨true, "Shift reminder cancelled via Live Activity"⟩
      | .error _ => none
    else none
  match early with
  | some r => (.ok r, store)
  | none =>
    match o.listResult with
    | .error e =>
      (.ok ⟨false, "Failed to cancel shift reminder: " ++ errMsg e⟩, store)
    | .ok _ =>
      let relevant := store.filter (fun n => n.shiftId == some shiftId)
      match cancelLoop o relevant store with
      | (.ok _, store') =>
        (.ok ⟨true, "Shift reminder cancelled (" ++ toString relevant.length
          ++ " notifications removed)"⟩, store')
      | (.error e, store') =>
        (.ok ⟨false, "Failed to cancel shift reminder: " ++ errMsg e⟩, store')

/-- `{notifications, total}` returned by `getActiveShiftReminders`. -/
structure ActiveRemindersResult where
  notifications : List SchedNotif
  total : Nat
deriving Repr, DecidableEq

/-- `notif.content.data?.type?.includes('shift')`: the optional `type`
field is present and contains `"shift"` as a substring. -/
def typeMentionsShift (n : SchedNotif) : Bool :=
  match n.ntype with
  | some t => containsSub t "shift"
  | none => false

/-- part_002 `getActiveShiftReminders()`: list all scheduled notifications
and keep those whose `data.type` mentions `shift`, returning them together
with their count; if the listing throws, the `catch` returns
`{notifications: [], total: 0}`.  Total by construction — it always returns
a value. -/
def getActiveShiftReminders (store : List SchedNotif)
    (listResult : Except JsError Unit) : ActiveRemindersResult :=
  match listResult with
  | .error _ => ⟨[], 0⟩
  | .ok _ =>
    let shiftNotifications := store.filter typeMentionsShift
    ⟨shiftNotifications, shiftNotifications.length⟩

/-! ## Fallback transparency (C1) -/

/-- C1: whenever the rich-activity start attempt throws but the notification
schedule succeeds, every start variant returns a success result whose
resource kind is notification, and the activity failure is not surfaced:
`startLiveActivity` returns `{type:'notification'}`, the part_001
`startShiftReminder` returns `{type:'notification'}`, and the part_002
`startShiftReminder` returns `{success:true, notificationId}` with no
activity id. -/
theorem startReminder_fallback_to_notification
    (o : TxOracle) (e : JsError) (nid : String)
    (hsup : o.supported = true) (hact : o.nativeStart = .error e)
    (hnotif : (sendTransactionNotification o.gw).result = .ok nid)
    (p : P1Oracle) (cid : String) (e' : JsError) (nid' : String)
    (hpios : p.isIOS = true) (hpimp : p.importResult = .ok ())
    (hphas : p.hasStartActivity = true)
    (hpact : p.activityStart = .error e') (hpsched : p.scheduleResult = .ok nid')
    (s : ShiftOracle) (d : ShiftActivityData) (e2 : JsError) (nid2 : String)
    (hsconf : s.configResult = .ok ()) (hsios : s.isIOS = true)
    (hshas : s.hasStartActivity = true)
    (hsact : s.activityStart = .error e2) (hssched : s.scheduleResult = .ok nid2) :
    startLiveActivity o = .ok ⟨nid, .notification⟩ ∧
    startShiftReminder1 p cid = .ok ⟨"notification", nid'⟩ ∧
    startShiftReminder2 s d =
      ⟨true, none, some nid2, "Shift reminder scheduled via notification",
        some (triggerSeconds d.startTime s.nowMs)⟩ := by
  refine ⟨?_, ?_, ?_⟩
  · simp [startLiveActivity, hsup, hact, hnotif]
  · simp [startShiftReminder1, hpios, hpimp, hphas, hpact, hpsched]
  · simp [startShiftReminder2, hsconf, hsios, hshas, hsact, hssched]

/-- Witness for C1: all three fallbacks at concrete oracles. -/
theorem startReminder_fallback_to_notification_witness :
    startLiveActivity
        ⟨true, .error (.activityError "native start failed" "x"),
          ⟨true, false, .ok "notif-1", .ok "notif-1"⟩⟩ =
      .ok ⟨"notif-1", .notification⟩ ∧
    startShiftReminder1 ⟨true, .ok (), true, .error (.generic "no module"), .ok "notif-2"⟩
        "chk-1" = .ok ⟨"notification", "notif-2"⟩ := by
  have h := startReminder_fallback_to_notification
    ⟨true, .error (.activityError "native start failed" "x"),
      ⟨true, false, .ok "notif-1", .ok "notif-1"⟩⟩
    (.activityError "native start failed" "x") "notif-1" rfl rfl rfl
    ⟨true, .ok (), true, .error (.generic "no module"), .ok "notif-2"⟩
    "chk-1" (.generic "no module") "notif-2" rfl rfl rfl rfl rfl
    ⟨.ok (), true, true, .error (.generic "boom"), .ok "notif-3", 0⟩
    ⟨"sh-1", 0, 0⟩ (.generic "boom") "notif-3" rfl rfl rfl rfl rfl
  exact ⟨h.1, h.2.1⟩

/-! ## Trigger-delay clamping (C3) -/

/-- The clamp always yields at least one second. -/
theorem one_le_triggerSeconds (target now : Int) : 1 ≤ triggerSeconds target now :=
  le_max_left 1 _

/-- When the target minus the 15-minute lead is at most one second away
(in particular whenever it is already past), the clamp yields exactly one
second. -/
theorem triggerSeconds_eq_one (target now : Int)
    (h : target - 900000 - now ≤ 1000) : triggerSeconds target now = 1 := by
  unfold triggerSeconds
  rw [Int.fdiv_eq_ediv _ (by norm_num : (0 : Int) ≤ 1000)]
  apply max_eq_left
  omega

/-- Any trigger `startShiftReminder2` passes to the scheduler is the clamped
lead-time delay for `startTime`. -/
theorem startShiftReminder2_trigger (o : ShiftOracle) (d : ShiftActivityData) (t : Int)
    (h : (startShiftReminder2 o d).scheduledTrigger = some t) :
    t = triggerSeconds d.startTime o.nowMs := by
  unfold startShiftReminder2 at h
  cases hc : o.configResult with
  | error e => rw [hc] at h; simp at h
  | ok u =>
    rw [hc] at h
    cases hio : (o.isIOS && o.hasStartActivity) with
    | true =>
      rw [hio] at h
      cases ha : o.activityStart with
      | ok aid => rw [ha] at h; simp at h
      | error e =>
        rw [ha] at h
        cases hs : o.scheduleResult <;> rw [hs] at h <;>
          simpa using h.symm
    | false =>
      rw [hio] at h
      cases hs : o.scheduleResult <;> rw [hs] at h <;>
        simpa using h.symm

/-- Any trigger `endShiftReminder2` passes to the scheduler is the clamped
lead-time delay for `endTime`. -/
theorem endShiftReminder2_trigger (o : EndShiftOracle) (d : ShiftActivityData) (t : Int)
    (h : (endShiftReminder2 o d).scheduledTrigger = some t) :
    t = triggerSeconds d.endTime o.nowMs := by
  unfold endShiftReminder2 at h
  cases hc : o.configResult with
  | error e => rw [hc] at h; simp at h
  | ok u =>
    rw [hc] at h
    cases hio : (o.isIOS && (o.hasStartActivity || o.hasUpdateActivity)) with
    | true =>
      rw [hio] at h
      cases hup : o.hasUpdateActivity with
      | true =>
        rw [hup] at h
        cases hu : o.updateResult with
        | ok u' => rw [hu] at h; simp at h
        | error e =>
          rw [hu] at h
          cases hs : o.scheduleResult <;> rw [hs] at h <;> simpa using h.symm
      | false =>
        rw [hup] at h
        cases hstart : o.startResult with
        | ok aid => rw [hstart] at h; simp at h
        | error e =>
          rw [hstart] at h
          cases hs : o.scheduleResult <;> rw [hs] at h <;> simpa using h.symm
    | false =>
      rw [hio] at h
      cases hs : o.scheduleResult <;> rw [hs] at h <;> simpa using h.symm

/-- C3: the trigger delay passed to the notification scheduler is always at
least one second, and whenever `scheduledAt` minus the 15-minute lead minus
now is at most one second (in particular for any `scheduledAt` in the past)
it is exactly one second — never zero, never negative — in both the
start-shift and end-shift reminder paths. -/
theorem trigger_delay_clamped :
    (∀ target now : Int, 1 ≤ triggerSeconds target now) ∧
    (∀ target now : Int, target - 900000 - now ≤ 1000 → triggerSeconds target now = 1) ∧
    (∀ (o : ShiftOracle) (d : ShiftActivityData) (t : Int),
      (startShiftReminder2 o d).scheduledTrigger = some t →
        1 ≤ t ∧ (d.startTime - 900000 - o.nowMs ≤ 1000 → t = 1)) ∧
    (∀ (o : EndShiftOracle) (d : ShiftActivityData) (t : Int),
      (endShiftReminder2 o d).scheduledTrigger = some t →
        1 ≤ t ∧ (d.endTime - 900000 - o.nowMs ≤ 1000 → t = 1)) := by
  refine ⟨one_le_triggerSeconds, triggerSeconds_eq_one, ?_, ?_⟩
  · intro o d t h
    obtain rfl := startShiftReminder2_trigger o d t h
    exact ⟨one_le_triggerSeconds _ _, triggerSeconds_eq_one _ _⟩
  · intro o d t h
    obtain rfl := endShiftReminder2_trigger o d t h
    exact ⟨one_le_triggerSeconds _ _, triggerSeconds_eq_one _ _⟩

/-- Witness for C3: a reminder whose `scheduledAt` is in the past (target
1000 ms, now 0) gets a one-second delay, and concrete start/end oracles
taking the notification path pass exactly the clamped trigger. -/
theorem trigger_delay_clamped_witness :
    triggerSeconds 1000 0 = 1 ∧
    (1 ≤ (1 : Int) ∧ ((0 : Int) - 900000 - 0 ≤ 1000 → (1 : Int) = 1)) ∧
    (1 ≤ (1 : Int) ∧ ((0 : Int) - 900000 - 0 ≤ 1000 → (1 : Int) = 1)) :=
  ⟨trigger_delay_clamped.2.1 1000 0 (by norm_num),
   trigger_delay_clamped.2.2.1 ⟨.ok (), false, false, .ok "a", .ok "n", 0⟩
     ⟨"sh", 0, 0⟩ 1 (by decide),
   trigger_delay_clamped.2.2.2 ⟨.ok (), false, false, false, .ok (), .ok "a", .ok "n", 0⟩
     ⟨"sh", 0, 0⟩ 1 (by decide)⟩

/-! ## Double failure of both paths (C4) -/

/-- A part_001 start oracle in which the live-activity start and the
notification schedule both throw. -/
def c4Oracle : P1Oracle :=
  ⟨true, .ok (), true, .error (.generic "activity start failed"),
    .error (.generic "schedule failed")⟩

/-- C4 counterexample: with both the activity path and the notification
fallback failing, the part_001 `startShiftReminder` does not return a
`success:false` result — it throws `Error('Could not start shift
reminder')`. -/
theorem startShiftReminder1_throws_on_double_failure :
    startShiftReminder1 c4Oracle "chk-9" =
      .error (.generic "Could not start shift reminder") := rfl

/-- C4 as amended: when both paths fail, no resource id is ever bound — but
only the part_002 `startShiftReminder` returns `{success:false}` without
throwing; `startLiveActivity` instead throws an `ActivityError` and the
part_001 `startShiftReminder` throws a plain `Error`. -/
theorem startReminder_double_failure_no_binding
    (s : ShiftOracle) (d : ShiftActivityData) (e1 e2 : JsError)
    (hc : s.configResult = .ok ()) (hi : s.isIOS = true)
    (hh : s.hasStartActivity = true)
    (ha : s.activityStart = .error e1) (hs : s.scheduleResult = .error e2)
    (o : TxOracle) (e3 e4 : JsError) (hsup : o.supported = true)
    (hns : o.nativeStart = .error e3)
    (hgw : (sendTransactionNotification o.gw).result = .error e4)
    (p : P1Oracle) (cid : String) (e5 e6 : JsError)
    (hpi : p.isIOS = true) (hpm : p.importResult = .ok ())
    (hph : p.hasStartActivity = true)
    (hpa : p.activityStart = .error e5) (hps : p.scheduleResult = .error e6) :
    ((startShiftReminder2 s d).success = false ∧
     (startShiftReminder2 s d).activityId = none ∧
     (startShiftReminder2 s d).notificationId = none) ∧
    startLiveActivity o =
      .error (.activityError "Failed to start Live Activity or send notification"
        (errMsg e4)) ∧
    startShiftReminder1 p cid = .error (.generic "Could not start shift reminder") := by
  refine ⟨⟨?_, ?_, ?_⟩, ?_, ?_⟩ <;>
    simp [startShiftReminder2, startLiveActivity, startShiftReminder1,
      hc, hi, hh, ha, hs, hsup, hns, hgw, hpi, hpm, hph, hpa, hps]

/-- Witness for the amended C4 at concrete double-failure oracles. -/
theorem startReminder_double_failure_no_binding_witness :
    (startShiftReminder2 ⟨.ok (), true, true, .error (.generic "a"),
        .error (.generic "b"), 0⟩ ⟨"sh", 0, 0⟩).success = false ∧
    startLiveActivity ⟨true, .error (.generic "c"),
        ⟨true, false, .error (.generic "d1"), .error (.generic "d2")⟩⟩ =
      .error (.activityError "Failed to start Live Activity or send notification"
        "Failed to send notification") := by
  have h := startReminder_double_failure_no_binding
    ⟨.ok (), true, true, .error (.generic "a"), .error (.generic "b"), 0⟩
    ⟨"sh", 0, 0⟩ (.generic "a") (.generic "b") rfl rfl rfl rfl rfl
    ⟨true, .error (.generic "c"),
      ⟨true, false, .error (.generic "d1"), .error (.generic "d2")⟩⟩
    (.generic "c") (.notificationError "Failed to send notification" "d2")
    rfl rfl rfl
    c4Oracle "chk-9" (.generic "activity start failed") (.generic "schedule failed")
    rfl rfl rfl rfl rfl
  exact ⟨h.1.1, h.2.1⟩

/-! ## Teardown never throws (C5) -/

/-- C5: the teardown entry points never throw: the part_001
`endShiftReminder` always resolves (every internal failure is swallowed),
`endLiveActivity` always resolves — calling either on a subject with no
active handle included — `cancelShiftReminder` always resolves to a result
rather than an error, and two consecutive `endShiftReminder` calls on the
same subject both complete. -/
theorem teardown_never_throws :
    (∀ (o : EndOracle) (cid : String) (st : List DisplayedNotif),
      (endShiftReminder1 o cid st).fst = .ok ()) ∧
    (∀ (sup : Bool) (r : Except JsError Unit), endLiveActivity sup r = .ok ()) ∧
    (∀ (o : CancelOracle) (store : List SchedNotif) (sid ty : String),
      ∃ r, (cancelShiftReminder o store sid ty).fst = .ok r) ∧
    (∀ (o o' : EndOracle) (cid : String) (st : List DisplayedNotif),
      (endShiftReminder1 o cid st).fst = .ok () ∧
      (endShiftReminder1 o' cid (endShiftReminder1 o cid st).snd).fst = .ok ()) := by
  have hend : ∀ (o : EndOracle) (cid : String) (st : List DisplayedNotif),
      (endShiftReminder1 o cid st).fst = .ok () := by
    intro o cid st
    unfold endShiftReminder1
    cases o.isIOS <;> cases o.importResult <;> cases o.hasEndActivity <;>
      cases o.endResult <;> cases o.dismissAllResult <;>
        simp [jsTry, Except.bind]
  have hcancel : ∀ (o : CancelOracle) (store : List SchedNotif) (sid ty : String),
      ∃ r, (cancelShiftReminder o store sid ty).fst = .ok r := by
    intro o store sid ty
    unfold cancelShiftReminder
    cases hio : (o.isIOS && o.hasDismissActivity) with
    | true =>
      cases hd : o.dismissResult with
      | ok u => exact ⟨_, rfl⟩
      | error e =>
        cases hl : o.listResult with
        | error e' => exact ⟨_, rfl⟩
        | ok u =>
          rcases hcl : cancelLoop o (store.filter (fun n => n.shiftId == some sid)) store
            with ⟨res, st'⟩
          cases res <;> simp [hcl]
    | false =>
      cases hl : o.listResult with
      | error e' => exact ⟨_, rfl⟩
      | ok u =>
        rcases hcl : cancelLoop o (store.filter (fun n => n.shiftId == some sid)) store
          with ⟨res, st'⟩
        cases res <;> simp [hcl]
  refine ⟨hend, ?_, hcancel, fun o o' cid st => ⟨hend o cid st, hend o' cid _⟩⟩
  intro sup r
  cases sup <;> cases r <;> simp [endLiveActivity, jsTry]

/-! ## The broad dismiss is global (C7) -/

/-- A healthy part_001 end oracle: every underlying call succeeds. -/
def c7Oracle : EndOracle := ⟨true, .ok (), true, .ok (), .ok ()⟩

/-- An outstanding notification belonging to a different subject. -/
def c7Store : List DisplayedNotif := [⟨"n1", some "other-shift"⟩]

/-- C7 counterexample: ending the reminder for subject `shift-42` does not
leave the outstanding notification of the unrelated subject `other-shift`
in place — the broad dismiss clears it too. -/
theorem endShiftReminder1_clears_foreign_notification :
    (⟨"n1", some "other-shift"⟩ : DisplayedNotif) ∈ c7Store ∧
    some "other-shift" ≠ some "shift-42" ∧
    (⟨"n1", some "other-shift"⟩ : DisplayedNotif) ∉
      (endShiftReminder1 c7Oracle "shift-42" c7Store).snd := by
  decide

/-- C7 as amended: the dismiss `endShiftReminder` unconditionally issues is
`dismissAllNotificationsAsync`, which clears every outstanding
notification, whatever subject its payload correlates to; no filtering by
subjectId happens. -/
theorem endShiftReminder1_dismisses_all (o : EndOracle) (cid : String)
    (st : List DisplayedNotif) (h : o.dismissAllResult = .ok ()) :
    (endShiftReminder1 o cid st).snd = [] := by
  unfold endShiftReminder1
  cases o.isIOS <;> cases o.importResult <;> cases o.hasEndActivity <;>
    cases o.endResult <;> simp [jsTry, Except.bind, h]

/-- Witness for the amended C7: a concrete healthy teardown clears the
store. -/
theorem endShiftReminder1_dismisses_all_witness :
    (endShiftReminder1 c7Oracle "shift-42" c7Store).snd = [] :=
  endShiftReminder1_dismisses_all c7Oracle "shift-42" c7Store rfl

/-! ## Update failure does not re-start (C8) -/

/-- C8 counterexample: when the underlying activity update fails with a
stale native id, `updateLiveActivity` performs no fresh start — its native
call trace is exactly the one (failed) update — and it returns normally, so
no rebinding can occur. -/
theorem updateLiveActivity_no_restart_on_failure :
    updateLiveActivity true (.error (.activityError "update failed" "stale native id"))
        "act-1" = (.ok (), [NativeCall.updateA "act-1"]) ∧
    ((updateLiveActivity true (.error (.activityError "update failed" "stale native id"))
        "act-1").snd.all (fun c => !c.isStart)) = true :=
  ⟨rfl, rfl⟩

/-- C8 as amended: when the underlying activity update fails,
`updateLiveActivity` only logs and swallows the error and returns; it never
attempts a fresh activity start (its native call trace contains no start
call) and no handle is rebound. -/
theorem updateLiveActivity_swallows_and_never_restarts
    (supported : Bool) (updateNative : Except JsError Unit) (aid : String) :
    (updateLiveActivity supported updateNative aid).fst = .ok () ∧
    ((updateLiveActivity supported updateNative aid).snd.all
      (fun c => !c.isStart)) = true := by
  cases supported <;> cases updateNative <;>
    simp [updateLiveActivity, jsTry, NativeCall.isStart]

/-! ## Cancelling an unknown subject (C9) -/

/-- C9: for a subject for which no reminder was ever started (no scheduled
notification embeds that shiftId in its payload, and dismissal of a
non-existent activity is idempotent), `cancelShiftReminder` is a no-op
returning a success result and leaving the scheduled store unchanged — it
cancels exactly the (here empty) set of notifications whose payload
shiftId equals the given one. -/
theorem cancelShiftReminder_noop_without_prior_start
    (o : CancelOracle) (store : List SchedNotif) (sid ty : String)
    (hmatch : store.filter (fun n => n.shiftId == some sid) = [])
    (hlist : o.listResult = .ok ()) :
    ∃ r, cancelShiftReminder o store sid ty = (.ok r, store) ∧ r.success = true := by
  unfold cancelShiftReminder
  cases hio : (o.isIOS && o.hasDismissActivity) with
  | true =>
    cases hd : o.dismissResult with
    | ok u => exact ⟨_, rfl, rfl⟩
    | error e =>
      rw [hlist, hmatch]
      exact ⟨_, rfl, rfl⟩
  | false =>
    rw [hlist, hmatch]
    exact ⟨_, rfl, rfl⟩

/-- Witness for C9: a store holding only another subject's notification is
untouched and the call succeeds. -/
theorem cancelShiftReminder_noop_witness :
    ∃ r, cancelShiftReminder ⟨false, false, .ok (), .ok (), fun _ => .ok ()⟩
        [⟨"n1", some "other", some "shift-reminder"⟩] "shift-1" "start" =
      (.ok r, [⟨"n1", some "other", some "shift-reminder"⟩]) ∧ r.success = true :=
  cancelShiftReminder_noop_without_prior_start
    ⟨false, false, .ok (), .ok (), fun _ => .ok ()⟩
    [⟨"n1", some "other", some "shift-reminder"⟩] "shift-1" "start" (by decide) rfl

/-! ## Listing active reminders (C10) -/

/-- C10: `getActiveShiftReminders` is total at the public interface (it is a
function into its result type: every listing outcome yields a value), its
`total` field always equals the length of the returned notification
sequence, and a failed listing yields the empty sequence with total 0. -/
theorem getActiveShiftReminders_total_consistent :
    (∀ (store : List SchedNotif) (lr : Except JsError Unit),
      (getActiveShiftReminders store lr).total =
        (getActiveShiftReminders store lr).notifications.length) ∧
    (∀ (store : List SchedNotif) (e : JsError),
      getActiveShiftReminders store (.error e) = ⟨[], 0⟩) := by
  constructor
  · intro store lr
    cases lr <;> rfl
  · intro store e
    rfl

end BankMinder
